import Mathlib

/-!
Verification development for the MCP Vercel server
(`mcp_vercel_server.py`): a shallow embedding of the tool handlers,
the response-envelope construction, and the HTTP dispatch layer,
together with theorems settling the specification claims.

Modelling conventions:
* Python dicts that cross the tool boundary are modelled by the JSON
  value type `JVal`; field order in object literals follows the order
  of the Python dict literals in the source.
* `datetime.datetime.now().isoformat()` is modelled by an explicit
  `now : String` input.
* The upstream `requests.get` call is modelled by an oracle
  `upstream : OutCall → HTTPResponse`; each handler returns, next to
  its envelope, the list of outbound calls it performed.
  `response.json()` is modelled as `Except String JVal` (the raised
  decode-error message, or the parsed body); network-level exceptions
  from `requests.get` itself are outside the model (the oracle is
  total).
-/

namespace Vercel

/-- JSON values, the payloads crossing the tool boundary. -/
inductive JVal where
  | null
  | bool (b : Bool)
  | num (n : Int)
  | str (s : String)
  | arr (xs : List JVal)
  | obj (fields : List (String × JVal))

/-- Field lookup in a JSON object (`none` on non-objects). -/
def JVal.lookup (v : JVal) (k : String) : Option JVal :=
  match v with
  | .obj fs => fs.lookup k
  | _ => none

/-- Python truthiness (`if x:`) on the modelled JSON values. -/
def truthy : JVal → Bool
  | .null => false
  | .bool b => b
  | .num n => n != 0
  | .str s => s != ""
  | .arr xs => !xs.isEmpty
  | .obj fs => !fs.isEmpty

/-- Python `str()` as used in f-string interpolation of endpoint paths.
The `arr`/`obj` cases abstract the Python `repr` text; no claim
exercises them (tool ids are strings in every claim). -/
def pyStr : JVal → String
  | .null => "None"
  | .bool b => if b then "True" else "False"
  | .num n => toString n
  | .str s => s
  | .arr _ => "<list repr>"
  | .obj _ => "<dict repr>"

/-- One outbound `requests.get` call: URL, headers and query params. -/
structure OutCall where
  url : String
  headers : List (String × String)
  params : List (String × JVal)

/-- The upstream `requests.Response` as observed by the handlers:
status code, body text, and the behaviour of `.json()` (parsed value,
or the message of the raised decode error). -/
structure HTTPResponse where
  status_code : Nat
  text : String
  json : Except String JVal

/-- The response-processing block repeated verbatim in
`run_vercel_command` and in every API tool (lines 131-144, 211-224,
...): 2xx wraps the parsed body as a success envelope; other statuses
produce the error envelope carrying the status code and body text; a
decode error from `.json()` is caught by the surrounding
`except Exception` and yields the generic error envelope. -/
def processResponse (response : HTTPResponse) (now : String) : JVal :=
  if 200 ≤ response.status_code ∧ response.status_code < 300 then
    match response.json with
    | .ok v =>
        .obj [("status", .str "success"), ("data", v), ("timestamp", .str now)]
    | .error e =>
        .obj [("status", .str "error"), ("message", .str ("Error: " ++ e)),
              ("timestamp", .str now)]
  else
    .obj [("status", .str "error"),
          ("message", .str ("API request failed with status code "
                            ++ toString response.status_code)),
          ("error", .str response.text),
          ("timestamp", .str now)]

/-- The token-not-configured envelope, repeated verbatim at the top of
every credential-requiring tool. -/
def tokenNotConfigured (now : String) : JVal :=
  .obj [("status", .str "error"),
        ("message", .str ("Vercel token not configured. "
                          ++ "Please set the VERCEL_TOKEN environment variable.")),
        ("timestamp", .str now)]

/-- The headers dict built by `run_vercel_command` and every API tool. -/
def apiHeaders (VERCEL_TOKEN : String) : List (String × String) :=
  [("Authorization", "Bearer " ++ VERCEL_TOKEN),
   ("Content-Type", "application/json")]

/-- `run_vercel_command(command_args)` (lines 91-151): maps CLI-style
arguments to one API GET and processes the response; unrecognized
commands yield an error envelope without any outbound call.  An empty
argument list raises `IndexError` at `command_args[0]`, caught by the
surrounding `except` into the generic error envelope. -/
def run_vercel_command (VERCEL_TOKEN : String) (now : String)
    (upstream : OutCall → HTTPResponse) (command_args : List String) :
    JVal × List OutCall :=
  match command_args with
  | [] =>
      (.obj [("status", .str "error"),
             ("message", .str "Error: list index out of range"),
             ("timestamp", .str now)], [])
  | a0 :: rest =>
      if a0 = "ls" ∨ (rest ≠ [] ∧ a0 = "project" ∧ rest.getD 0 "" = "ls") then
        let call : OutCall :=
          { url := "https://api.vercel.com/v9/projects",
            headers := apiHeaders VERCEL_TOKEN, params := [] }
        (processResponse (upstream call) now, [call])
      else if a0 = "list" then
        let params1 : List (String × JVal) :=
          match rest with
          | a1 :: _ => if a1 ≠ "--limit" then [("name", .str a1)] else []
          | [] => []
        let params2 : List (String × JVal) :=
          if "--limit" ∈ command_args then
            let li := command_args.indexOf "--limit"
            if li + 1 < command_args.length then
              params1 ++ [("limit", .str (command_args.getD (li + 1) ""))]
            else params1
          else params1
        let call : OutCall :=
          { url := "https://api.vercel.com/v6/deployments",
            headers := apiHeaders VERCEL_TOKEN, params := params2 }
        (processResponse (upstream call) now, [call])
      else
        (.obj [("status", .str "error"),
               ("message", .str ("Unsupported command: "
                                 ++ String.intercalate " " command_args)),
               ("timestamp", .str now)], [])

/-- `list_projects()` (lines 153-168). -/
def list_projects (VERCEL_TOKEN : String) (now : String)
    (upstream : OutCall → HTTPResponse) : JVal × List OutCall :=
  if VERCEL_TOKEN = "" then (tokenNotConfigured now, [])
  else run_vercel_command VERCEL_TOKEN now upstream ["ls"]

/-- `list_deployments(project_id=None, limit=5)` (lines 170-231). -/
def list_deployments (VERCEL_TOKEN : String) (now : String)
    (upstream : OutCall → HTTPResponse)
    (project_id : JVal := .null) (limit : JVal := .num 5) :
    JVal × List OutCall :=
  if VERCEL_TOKEN = "" then (tokenNotConfigured now, [])
  else
    let params : List (String × JVal) :=
      (if truthy project_id then [("projectId", project_id)] else [])
      ++ (if truthy limit then [("limit", limit)] else [])
    let call : OutCall :=
      { url := "https://api.vercel.com/v6/deployments",
        headers := apiHeaders VERCEL_TOKEN, params := params }
    (processResponse (upstream call) now, [call])

/-- `get_project_info(project_id)` (lines 233-280). -/
def get_project_info (VERCEL_TOKEN : String) (now : String)
    (upstream : OutCall → HTTPResponse) (project_id : JVal) :
    JVal × List OutCall :=
  if VERCEL_TOKEN = "" then (tokenNotConfigured now, [])
  else
    let call : OutCall :=
      { url := "https://api.vercel.com/v9/projects/" ++ pyStr project_id,
        headers := apiHeaders VERCEL_TOKEN, params := [] }
    (processResponse (upstream call) now, [call])

/-- `set_vercel_token(token)` (lines 282-305): returns the new value of
the global `VERCEL_TOKEN`, the log line printed, and the response
envelope.  (Only called with string tokens in this development; a
non-string argument would raise inside the handler after the global
was already reassigned, a path no claim exercises.) -/
def set_vercel_token (token : String) (now : String) :
    String × String × JVal :=
  let masked_token :=
    if token.length > 8 then token.take 4 ++ "****" ++ token.takeRight 4
    else "****"
  (token,
   "Vercel token updated: " ++ masked_token,
   .obj [("status", .str "success"),
         ("message", .str "Vercel token updated successfully"),
         ("timestamp", .str now)])

/-- `check_server_status()` (lines 307-333); the `vercel --version`
subprocess probe is modelled by `vercel_cli : Option String` (the
version text when installed). -/
def check_server_status (VERCEL_TOKEN : String)
    (vercel_cli : Option String) (pid : Nat) (now : String) : JVal :=
  let vercel_installed := vercel_cli.isSome
  let vercel_version := vercel_cli.getD "Not installed"
  .obj [("status", .str "online"),
        ("server_name", .str "MCP Vercel CLI Server"),
        ("version", .str "1.0.0"),
        ("vercel_cli_installed", .bool vercel_installed),
        ("vercel_cli_version", .str vercel_version),
        ("vercel_token_configured", .bool (VERCEL_TOKEN ≠ "")),
        ("pid", .num pid),
        ("timestamp", .str now)]

/-- `list_project_domains(project_id)` (lines 335-382). -/
def list_project_domains (VERCEL_TOKEN : String) (now : String)
    (upstream : OutCall → HTTPResponse) (project_id : JVal) :
    JVal × List OutCall :=
  if VERCEL_TOKEN = "" then (tokenNotConfigured now, [])
  else
    let call : OutCall :=
      { url := "https://api.vercel.com/v9/projects/" ++ pyStr project_id
               ++ "/domains",
        headers := apiHeaders VERCEL_TOKEN, params := [] }
    (processResponse (upstream call) now, [call])

/-- `list_environment_variables(project_id)` (lines 384-431). -/
def list_environment_variables (VERCEL_TOKEN : String) (now : String)
    (upstream : OutCall → HTTPResponse) (project_id : JVal) :
    JVal × List OutCall :=
  if VERCEL_TOKEN = "" then (tokenNotConfigured now, [])
  else
    let call : OutCall :=
      { url := "https://api.vercel.com/v9/projects/" ++ pyStr project_id
               ++ "/env",
        headers := apiHeaders VERCEL_TOKEN, params := [] }
    (processResponse (upstream call) now, [call])

/-- `get_user_info()` (lines 433-480). -/
def get_user_info (VERCEL_TOKEN : String) (now : String)
    (upstream : OutCall → HTTPResponse) : JVal × List OutCall :=
  if VERCEL_TOKEN = "" then (tokenNotConfigured now, [])
  else
    let call : OutCall :=
      { url := "https://api.vercel.com/v2/user",
        headers := apiHeaders VERCEL_TOKEN, params := [] }
    (processResponse (upstream call) now, [call])

/-- `list_deployment_aliases(deployment_id)` (lines 482-529). -/
def list_deployment_aliases (VERCEL_TOKEN : String) (now : String)
    (upstream : OutCall → HTTPResponse) (deployment_id : JVal) :
    JVal × List OutCall :=
  if VERCEL_TOKEN = "" then (tokenNotConfigured now, [])
  else
    let call : OutCall :=
      { url := "https://api.vercel.com/v2/deployments/" ++ pyStr deployment_id
               ++ "/aliases",
        headers := apiHeaders VERCEL_TOKEN, params := [] }
    (processResponse (upstream call) now, [call])

/-! ## HTTP transport layer (`MCPHTTPHandler`, lines 531-666) -/

/-- An HTTP response as written by the handler: status code, headers in
the order they are sent, and the JSON body (`none` when no body is
written).  The value of the `Content-Length` header (the byte count of
the serialized body) is abstracted by a placeholder string, since
serialization (`json.dumps`) is not modelled; presence and position of
the header are faithful. -/
structure HttpReply where
  status : Nat
  headers : List (String × String)
  body : Option JVal

/-- `_send_json_response(data)` (lines 550-565). -/
def send_json_response (data : JVal) : HttpReply :=
  { status := 200,
    headers := [("Content-type", "application/json"),
                ("Access-Control-Allow-Origin", "*"),
                ("Connection", "close"),
                ("Content-Length", "<byte count of serialized body>")],
    body := some data }

/-- `_handle_error(status_code, message)` (lines 567-578).  Note: no
`Access-Control-Allow-Origin` header is sent on this path. -/
def handle_error (status_code : Nat) (message : String) : HttpReply :=
  { status := status_code,
    headers := [("Content-type", "application/json"),
                ("Connection", "close"),
                ("Content-Length", "<byte count of serialized body>")],
    body := some (.obj [("error", .str message)]) }

/-- `do_OPTIONS` (lines 580-586).  Note: no `Content-Length` header and
no body are sent on this path. -/
def do_OPTIONS : HttpReply :=
  { status := 200,
    headers := [("Access-Control-Allow-Origin", "*"),
                ("Access-Control-Allow-Methods", "GET, POST, OPTIONS"),
                ("Access-Control-Allow-Headers", "Content-Type")],
    body := none }

/-- The ambient inputs of one request: the upstream oracle, the clock,
the pid, the `vercel --version` probe and the `connect_ex` probe of
`check_port_in_use`. -/
structure World where
  upstream : OutCall → HTTPResponse
  now : String
  pid : Nat
  vercel_cli : Option String
  portInUse : JVal → JVal → Bool

/-- Outcome of a callable invoked by the dispatcher: its return value,
the outbound calls it performed, the (possibly reassigned) global
`VERCEL_TOKEN`, and the log lines it printed that the claims inspect. -/
structure ToolOutcome where
  value : JVal
  calls : List OutCall
  newToken : String
  logs : List String

/-- The `tool_func(**params)` argument-after-`**` check: only a dict
(JSON object) may be splatted; anything else raises `TypeError`. -/
def asMapping (v : JVal) : Except String (List (String × JVal)) :=
  match v with
  | .obj fs => .ok fs
  | _ => .error "argument after ** must be a mapping, not a non-dict"

/-- CPython keyword-argument binding for `f(**params)` against the
parameter list `spec` (name, optional default): a key outside the
parameter names raises `TypeError` (unexpected keyword argument); a
parameter without default and without a matching key raises `TypeError`
(missing required argument); otherwise each parameter gets the supplied
value or its default.  The exception message texts are close to but not
byte-exact with CPython; no claim inspects them. -/
def bindArgs (fname : String) (spec : List (String × Option JVal))
    (params : List (String × JVal)) : Except String (List JVal) :=
  match params.find? (fun p => !(spec.any (fun s => s.1 == p.1))) with
  | some p =>
      .error (fname ++ "() got an unexpected keyword argument \x27"
              ++ p.1 ++ "\x27")
  | none =>
      spec.mapM (fun s =>
        match params.lookup s.1 with
        | some v => .ok v
        | none =>
            match s.2 with
            | some d => .ok d
            | none =>
                .error (fname ++ "() missing 1 required positional argument: \x27"
                        ++ s.1 ++ "\x27"))

/-- `get_registered_tools()` (lines 32-86), as invoked through the
dispatcher: for plain functions none of the attribute names contains
"mcp", so the loop over `globals()` collects exactly the names in
`known_tools` that are bound to callables, in module definition order. -/
def get_registered_tools : List String :=
  ["list_projects", "list_deployments", "get_project_info",
   "set_vercel_token", "check_server_status", "list_project_domains",
   "list_environment_variables", "get_user_info", "list_deployment_aliases"]

/-- `command_args` as a Python list of strings.  Calling
`run_vercel_command` through the dispatcher with a non-list-of-strings
value is modelled as a `TypeError`; no claim exercises such a value
(CPython would fail in assorted ways inside the function body). -/
def asStrList : JVal → Option (List String)
  | .arr xs => xs.mapM (fun v => match v with
      | .str s => some s
      | _ => none)
  | _ => none

/-- `globals().get(tool_name)` followed by `tool_func(**params)`
(lines 650-660): the dispatch table over the module-level callables of
`mcp_vercel_server.py`.  `none` models a name that is absent from the
module globals (or bound to a non-callable), which the handler turns
into HTTP 404.  The table covers the nine registered tools and the
module-level helper functions a POST can reach and that terminate
(`main`, which blocks forever serving, and the class objects are left
out; their absence is not load-bearing for any claim). -/
def callTool (w : World) (tok : String) (name : String) (paramsVal : JVal) :
    Option (Except String ToolOutcome) :=
  match name with
  | "list_projects" => some (do
      let fs ← asMapping paramsVal
      let _ ← bindArgs "list_projects" [] fs
      let r := list_projects tok w.now w.upstream
      .ok ⟨r.1, r.2, tok, []⟩)
  | "list_deployments" => some (do
      let fs ← asMapping paramsVal
      let args ← bindArgs "list_deployments"
        [("project_id", some .null), ("limit", some (.num 5))] fs
      match args with
      | [pj, lim] =>
          let r := list_deployments tok w.now w.upstream pj lim
          .ok ⟨r.1, r.2, tok, []⟩
      | _ => .error "impossible: bindArgs arity")
  | "get_project_info" => some (do
      let fs ← asMapping paramsVal
      let args ← bindArgs "get_project_info" [("project_id", none)] fs
      match args with
      | [pj] =>
          let r := get_project_info tok w.now w.upstream pj
          .ok ⟨r.1, r.2, tok, []⟩
      | _ => .error "impossible: bindArgs arity")
  | "set_vercel_token" => some (do
      let fs ← asMapping paramsVal
      let args ← bindArgs "set_vercel_token" [("token", none)] fs
      match args with
      | [.str t] =>
          let r := set_vercel_token t w.now
          .ok ⟨r.2.2, [], r.1, [r.2.1]⟩
      | [_] => .error "object of type has no len()"
      | _ => .error "impossible: bindArgs arity")
  | "check_server_status" => some (do
      let fs ← asMapping paramsVal
      let _ ← bindArgs "check_server_status" [] fs
      .ok ⟨check_server_status tok w.vercel_cli w.pid w.now, [], tok, []⟩)
  | "list_project_domains" => some (do
      let fs ← asMapping paramsVal
      let args ← bindArgs "list_project_domains" [("project_id", none)] fs
      match args with
      | [pj] =>
          let r := list_project_domains tok w.now w.upstream pj
          .ok ⟨r.1, r.2, tok, []⟩
      | _ => .error "impossible: bindArgs arity")
  | "list_environment_variables" => some (do
      let fs ← asMapping paramsVal
      let args ← bindArgs "list_environment_variables" [("project_id", none)] fs
      match args with
      | [pj] =>
          let r := list_environment_variables tok w.now w.upstream pj
          .ok ⟨r.1, r.2, tok, []⟩
      | _ => .error "impossible: bindArgs arity")
  | "get_user_info" => some (do
      let fs ← asMapping paramsVal
      let _ ← bindArgs "get_user_info" [] fs
      let r := get_user_info tok w.now w.upstream
      .ok ⟨r.1, r.2, tok, []⟩)
  | "list_deployment_aliases" => some (do
      let fs ← asMapping paramsVal
      let args ← bindArgs "list_deployment_aliases" [("deployment_id", none)] fs
      match args with
      | [did] =>
          let r := list_deployment_aliases tok w.now w.upstream did
          .ok ⟨r.1, r.2, tok, []⟩
      | _ => .error "impossible: bindArgs arity")
  | "run_vercel_command" => some (do
      let fs ← asMapping paramsVal
      let args ← bindArgs "run_vercel_command" [("command_args", none)] fs
      match args with
      | [ca] =>
          match asStrList ca with
          | some l =>
              let r := run_vercel_command tok w.now w.upstream l
              .ok ⟨r.1, r.2, tok, []⟩
          | none => .error "command_args is not a list of strings"
      | _ => .error "impossible: bindArgs arity")
  | "get_registered_tools" => some (do
      let fs ← asMapping paramsVal
      let _ ← bindArgs "get_registered_tools" [] fs
      .ok ⟨.arr (get_registered_tools.map .str), [], tok, []⟩)
  | "check_port_in_use" => some (do
      let fs ← asMapping paramsVal
      let args ← bindArgs "check_port_in_use" [("host", none), ("port", none)] fs
      match args with
      | [h, p] => .ok ⟨.bool (w.portInUse h p), [], tok, []⟩
      | _ => .error "impossible: bindArgs arity")
  | _ => none

/-- Python `path.startswith(pre)`, spelled over the character lists so
that it evaluates on concrete paths. -/
def pathStartsWith (path pre : String) : Bool :=
  pre.data.isPrefixOf path.data

/-- The POST request body as seen after `self.rfile.read`: empty, not
valid JSON, or parsed to a JSON value. -/
inductive Body where
  | empty
  | invalid
  | parsed (v : JVal)

/-- The observable outcome of one `do_POST`: the reply written, the
resulting global `VERCEL_TOKEN`, the outbound calls performed, and the
log lines printed. -/
structure PostResult where
  reply : HttpReply
  token : String
  calls : List OutCall
  logs : List String

/-- `do_POST` (lines 628-666): body parsed before the tool lookup
(invalid JSON yields 400 even for unknown names); unresolved names
yield 404; an exception from the call yields 500; otherwise the return
value is serialized with 200. -/
def do_POST (w : World) (tok : String) (path : String) (body : Body) :
    PostResult :=
  if pathStartsWith path "/tools/" then
    let tool_name := path.drop 7
    match body with
    | .invalid => ⟨handle_error 400 "Invalid JSON in request body", tok, [], []⟩
    | _ =>
        let paramsVal : JVal := match body with
          | .parsed v => v
          | _ => .obj []
        match callTool w tok tool_name paramsVal with
        | none =>
            ⟨handle_error 404 ("Tool \x27" ++ tool_name ++ "\x27 not found"),
             tok, [], []⟩
        | some (.error e) =>
            ⟨handle_error 500 ("Error calling tool: " ++ e), tok, [], []⟩
        | some (.ok o) =>
            ⟨send_json_response o.value, o.newToken, o.calls, o.logs⟩
  else
    ⟨handle_error 404 ("Not found: " ++ path), tok, [], []⟩

/-! ## Fixtures and helper lemmas -/

/-- A concrete ambient world used to instantiate closed statements:
the stubbed upstream answers 200 with JSON body `null`. -/
def w0 : World :=
  { upstream := fun _ => ⟨200, "", .ok .null⟩,
    now := "ts", pid := 0, vercel_cli := none,
    portInUse := fun _ _ => false }

theorem processResponse_timestamp (resp : HTTPResponse) (now : String) :
    (processResponse resp now).lookup "timestamp" = some (.str now) := by
  unfold processResponse
  split
  · cases resp.json <;> rfl
  · rfl

theorem processResponse_status (resp : HTTPResponse) (now : String) :
    ∃ s, (processResponse resp now).lookup "status" = some (.str s)
         ∧ (s = "success" ∨ s = "error") := by
  unfold processResponse
  split
  · cases resp.json with
    | ok v => exact ⟨"success", rfl, Or.inl rfl⟩
    | error e => exact ⟨"error", rfl, Or.inr rfl⟩
  · exact ⟨"error", rfl, Or.inr rfl⟩

/-- Every envelope produced by a credential-requiring tool is either the
token-not-configured envelope or the processed upstream response. -/
theorem envelopeFields (now : String) (e : JVal)
    (he : e = tokenNotConfigured now ∨ ∃ resp, e = processResponse resp now) :
    e.lookup "timestamp" = some (.str now)
    ∧ ∃ s, e.lookup "status" = some (.str s)
           ∧ (s = "success" ∨ s = "error") := by
  rcases he with h | ⟨resp, h⟩
  · subst h
    exact ⟨rfl, "error", rfl, Or.inr rfl⟩
  · subst h
    exact ⟨processResponse_timestamp resp now, processResponse_status resp now⟩

theorem list_projects_shape (tok now : String) (u : OutCall → HTTPResponse) :
    (list_projects tok now u).1 = tokenNotConfigured now
    ∨ ∃ resp, (list_projects tok now u).1 = processResponse resp now := by
  unfold list_projects run_vercel_command
  by_cases h : tok = "" <;> simp [h]
  exact Or.inr ⟨_, rfl⟩

theorem list_deployments_shape (tok now : String) (u : OutCall → HTTPResponse)
    (pj lim : JVal) :
    (list_deployments tok now u pj lim).1 = tokenNotConfigured now
    ∨ ∃ resp, (list_deployments tok now u pj lim).1 = processResponse resp now := by
  unfold list_deployments
  by_cases h : tok = "" <;> simp [h]
  exact Or.inr ⟨_, rfl⟩

theorem get_project_info_shape (tok now : String) (u : OutCall → HTTPResponse)
    (pj : JVal) :
    (get_project_info tok now u pj).1 = tokenNotConfigured now
    ∨ ∃ resp, (get_project_info tok now u pj).1 = processResponse resp now := by
  unfold get_project_info
  by_cases h : tok = "" <;> simp [h]
  exact Or.inr ⟨_, rfl⟩

theorem list_project_domains_shape (tok now : String) (u : OutCall → HTTPResponse)
    (pj : JVal) :
    (list_project_domains tok now u pj).1 = tokenNotConfigured now
    ∨ ∃ resp, (list_project_domains tok now u pj).1 = processResponse resp now := by
  unfold list_project_domains
  by_cases h : tok = "" <;> simp [h]
  exact Or.inr ⟨_, rfl⟩

theorem list_environment_variables_shape (tok now : String)
    (u : OutCall → HTTPResponse) (pj : JVal) :
    (list_environment_variables tok now u pj).1 = tokenNotConfigured now
    ∨ ∃ resp, (list_environment_variables tok now u pj).1 = processResponse resp now := by
  unfold list_environment_variables
  by_cases h : tok = "" <;> simp [h]
  exact Or.inr ⟨_, rfl⟩

theorem get_user_info_shape (tok now : String) (u : OutCall → HTTPResponse) :
    (get_user_info tok now u).1 = tokenNotConfigured now
    ∨ ∃ resp, (get_user_info tok now u).1 = processResponse resp now := by
  unfold get_user_info
  by_cases h : tok = "" <;> simp [h]
  exact Or.inr ⟨_, rfl⟩

theorem list_deployment_aliases_shape (tok now : String)
    (u : OutCall → HTTPResponse) (did : JVal) :
    (list_deployment_aliases tok now u did).1 = tokenNotConfigured now
    ∨ ∃ resp, (list_deployment_aliases tok now u did).1 = processResponse resp now := by
  unfold list_deployment_aliases
  by_cases h : tok = "" <;> simp [h]
  exact Or.inr ⟨_, rfl⟩

/-! ## Claims -/

/-- Claim C1: for a tool invocation whose outbound call completes, a 2xx
upstream status yields exactly the envelope
`{status: "success", data: <parsed body>, timestamp: <present>}`, and a
non-2xx status yields exactly
`{status: "error", message: <contains the status code>, error: <body
text>, timestamp: <present>}` — stated for `list_deployments` and for
`run_vercel_command ["ls"]` against a stubbed upstream. -/
theorem upstream_status_envelope_roundtrip (tok now : String)
    (resp : HTTPResponse) (pj lim : JVal) (htok : tok ≠ "") :
    (∀ v, resp.json = Except.ok v → 200 ≤ resp.status_code →
        resp.status_code < 300 →
        (list_deployments tok now (fun _ => resp) pj lim).1
          = JVal.obj [("status", JVal.str "success"), ("data", v),
                      ("timestamp", JVal.str now)]
        ∧ (run_vercel_command tok now (fun _ => resp) ["ls"]).1
          = JVal.obj [("status", JVal.str "success"), ("data", v),
                      ("timestamp", JVal.str now)])
    ∧ (resp.status_code < 200 ∨ 300 ≤ resp.status_code →
        (list_deployments tok now (fun _ => resp) pj lim).1
          = JVal.obj [("status", JVal.str "error"),
                      ("message", JVal.str ("API request failed with status code "
                                            ++ toString resp.status_code)),
                      ("error", JVal.str resp.text),
                      ("timestamp", JVal.str now)]
        ∧ (run_vercel_command tok now (fun _ => resp) ["ls"]).1
          = JVal.obj [("status", JVal.str "error"),
                      ("message", JVal.str ("API request failed with status code "
                                            ++ toString resp.status_code)),
                      ("error", JVal.str resp.text),
                      ("timestamp", JVal.str now)]
        ∧ ∃ pre post, "API request failed with status code "
                        ++ toString resp.status_code
                      = pre ++ toString resp.status_code ++ post) := by
  constructor
  · intro v hjson h2 h3
    have hif : 200 ≤ resp.status_code ∧ resp.status_code < 300 := ⟨h2, h3⟩
    constructor
    · simp [list_deployments, htok, processResponse, hif, hjson]
    · simp [run_vercel_command, processResponse, hif, hjson]
  · intro hrange
    have hif : ¬(200 ≤ resp.status_code ∧ resp.status_code < 300) := by omega
    refine ⟨?_, ?_, "API request failed with status code ", "", by simp⟩
    · simp [list_deployments, htok, processResponse, hif]
    · simp [run_vercel_command, processResponse, hif]

theorem upstream_status_envelope_roundtrip_witness :
    (list_deployments "t" "ts"
        (fun _ => ⟨200, "", Except.ok (JVal.obj [("x", JVal.num 1)])⟩)
        JVal.null (JVal.num 5)).1
      = JVal.obj [("status", JVal.str "success"),
                  ("data", JVal.obj [("x", JVal.num 1)]),
                  ("timestamp", JVal.str "ts")]
    ∧ (list_deployments "t" "ts" (fun _ => ⟨404, "not found", Except.error "e"⟩)
        JVal.null (JVal.num 5)).1
      = JVal.obj [("status", JVal.str "error"),
                  ("message", JVal.str "API request failed with status code 404"),
                  ("error", JVal.str "not found"),
                  ("timestamp", JVal.str "ts")] := by
  constructor
  · exact ((upstream_status_envelope_roundtrip "t" "ts"
        ⟨200, "", Except.ok (JVal.obj [("x", JVal.num 1)])⟩ JVal.null (JVal.num 5)
        (by decide)).1 (JVal.obj [("x", JVal.num 1)]) rfl (by decide) (by decide)).1
  · exact ((upstream_status_envelope_roundtrip "t" "ts"
        ⟨404, "not found", Except.error "e"⟩ JVal.null (JVal.num 5)
        (by decide)).2 (by decide)).1

/-- Claim C2: every credential-requiring tool, invoked with the
credential unset (empty string), returns the token-not-configured error
envelope (whose `status` field is `"error"`) and performs no outbound
call. -/
theorem missing_credential_fast_fail (now : String)
    (u : OutCall → HTTPResponse) (pj lim did : JVal) :
    list_projects "" now u = (tokenNotConfigured now, [])
    ∧ list_deployments "" now u pj lim = (tokenNotConfigured now, [])
    ∧ get_project_info "" now u pj = (tokenNotConfigured now, [])
    ∧ list_project_domains "" now u pj = (tokenNotConfigured now, [])
    ∧ list_environment_variables "" now u pj = (tokenNotConfigured now, [])
    ∧ get_user_info "" now u = (tokenNotConfigured now, [])
    ∧ list_deployment_aliases "" now u did = (tokenNotConfigured now, [])
    ∧ (tokenNotConfigured now).lookup "status" = some (.str "error") :=
  ⟨rfl, rfl, rfl, rfl, rfl, rfl, rfl, rfl⟩

/-- Claim C3 counterexample: a POST to an unregistered tool name with a
body that is not valid JSON is answered with HTTP 400, not 404 — the
body is parsed before the name is resolved. -/
theorem unknown_tool_invalid_body_gives_400 :
    (do_POST w0 "t" "/tools/does_not_exist" .invalid).reply.status = 400
    ∧ (do_POST w0 "t" "/tools/does_not_exist" .invalid).reply.status ≠ 404 := by
  exact ⟨rfl, by decide⟩

/-- Claim C3 (amended): a POST to an unregistered tool name yields HTTP
404 whenever the body is empty or parses as JSON; an invalid JSON body
yields HTTP 400 instead, before the name is resolved. -/
theorem unknown_tool_404_unless_invalid_json (w : World) (tok : String)
    (v : JVal) :
    (do_POST w tok "/tools/does_not_exist" .empty).reply.status = 404
    ∧ (do_POST w tok "/tools/does_not_exist" (.parsed v)).reply.status = 404
    ∧ (do_POST w tok "/tools/does_not_exist" .invalid).reply.status = 400 :=
  ⟨rfl, rfl, rfl⟩

/-- Claim C4 counterexample: `check_server_status` returns an envelope
whose `status` field is `"online"`, which is neither `"success"` nor
`"error"`, so the three-variant tagged union does not cover every tool
envelope. -/
theorem check_server_status_online_tag :
    (check_server_status "" none 0 "ts").lookup "status"
      = some (JVal.str "online")
    ∧ "online" ≠ "success" ∧ "online" ≠ "error" := by
  exact ⟨rfl, by decide, by decide⟩

/-- Claim C4 (amended): every tool invocation that returns normally
produces exactly one envelope that always contains a `timestamp` field;
its `status` field is `"success"` or `"error"` for every tool except
`check_server_status`, whose status is the fixed string `"online"`. -/
theorem envelope_union_and_timestamp (tok now t : String)
    (u : OutCall → HTTPResponse) (pj lim did : JVal)
    (cli : Option String) (pid : Nat) :
    ((list_projects tok now u).1.lookup "timestamp" = some (.str now)
      ∧ ∃ s, (list_projects tok now u).1.lookup "status" = some (.str s)
             ∧ (s = "success" ∨ s = "error"))
    ∧ ((list_deployments tok now u pj lim).1.lookup "timestamp" = some (.str now)
      ∧ ∃ s, (list_deployments tok now u pj lim).1.lookup "status" = some (.str s)
             ∧ (s = "success" ∨ s = "error"))
    ∧ ((get_project_info tok now u pj).1.lookup "timestamp" = some (.str now)
      ∧ ∃ s, (get_project_info tok now u pj).1.lookup "status" = some (.str s)
             ∧ (s = "success" ∨ s = "error"))
    ∧ ((list_project_domains tok now u pj).1.lookup "timestamp" = some (.str now)
      ∧ ∃ s, (list_project_domains tok now u pj).1.lookup "status" = some (.str s)
             ∧ (s = "success" ∨ s = "error"))
    ∧ ((list_environment_variables tok now u pj).1.lookup "timestamp" = some (.str now)
      ∧ ∃ s, (list_environment_variables tok now u pj).1.lookup "status" = some (.str s)
             ∧ (s = "success" ∨ s = "error"))
    ∧ ((get_user_info tok now u).1.lookup "timestamp" = some (.str now)
      ∧ ∃ s, (get_user_info tok now u).1.lookup "status" = some (.str s)
             ∧ (s = "success" ∨ s = "error"))
    ∧ ((list_deployment_aliases tok now u did).1.lookup "timestamp" = some (.str now)
      ∧ ∃ s, (list_deployment_aliases tok now u did).1.lookup "status" = some (.str s)
             ∧ (s = "success" ∨ s = "error"))
    ∧ ((set_vercel_token t now).2.2.lookup "timestamp" = some (.str now)
      ∧ (set_vercel_token t now).2.2.lookup "status" = some (.str "success"))
    ∧ ((check_server_status tok cli pid now).lookup "timestamp" = some (.str now)
      ∧ (check_server_status tok cli pid now).lookup "status"
          = some (.str "online")) :=
  ⟨envelopeFields now _ (list_projects_shape tok now u),
   envelopeFields now _ (list_deployments_shape tok now u pj lim),
   envelopeFields now _ (get_project_info_shape tok now u pj),
   envelopeFields now _ (list_project_domains_shape tok now u pj),
   envelopeFields now _ (list_environment_variables_shape tok now u pj),
   envelopeFields now _ (get_user_info_shape tok now u),
   envelopeFields now _ (list_deployment_aliases_shape tok now u did),
   ⟨rfl, rfl⟩, ⟨rfl, rfl⟩⟩

/-- Claim C5 counterexample: the response of `set_vercel_token` for the
token `"abcd1234efgh"` is exactly the fixed success envelope — it does
not include the masked form `"abcd****efgh"`; the masked form appears
only in the log line. -/
theorem set_token_response_has_no_masked_form :
    (set_vercel_token "abcd1234efgh" "ts").2.2
      = JVal.obj [("status", JVal.str "success"),
                  ("message", JVal.str "Vercel token updated successfully"),
                  ("timestamp", JVal.str "ts")]
    ∧ (set_vercel_token "abcd1234efgh" "ts").2.1
      = "Vercel token updated: abcd****efgh" :=
  ⟨rfl, by decide⟩

/-- Claim C5 (amended): `set_vercel_token` always succeeds, replaces the
process-wide credential so that the immediately following
credential-requiring call sends the new token in its `Authorization`
header, and the masked form of the token (first 4 and last 4 characters
visible, middle redacted) appears in the server log line — not in the
response, which is the fixed success envelope. -/
theorem set_token_updates_credential_and_logs_masked (token now : String)
    (u : OutCall → HTTPResponse) (hlen : 8 < token.length) :
    (set_vercel_token token now).1 = token
    ∧ (set_vercel_token token now).2.1
        = "Vercel token updated: "
          ++ (token.take 4 ++ "****" ++ token.takeRight 4)
    ∧ (set_vercel_token token now).2.2
        = JVal.obj [("status", JVal.str "success"),
                    ("message", JVal.str "Vercel token updated successfully"),
                    ("timestamp", JVal.str now)]
    ∧ (list_projects (set_vercel_token token now).1 now u).2
        = [{ url := "https://api.vercel.com/v9/projects",
             headers := [("Authorization", "Bearer " ++ token),
                         ("Content-Type", "application/json")],
             params := [] }] := by
  have hne : token ≠ "" := by
    intro h
    rw [h] at hlen
    simp at hlen
  refine ⟨rfl, ?_, rfl, ?_⟩
  · simp [set_vercel_token, hlen]
  · simp [set_vercel_token, list_projects, hne, run_vercel_command, apiHeaders]

theorem set_token_updates_credential_and_logs_masked_witness :
    (set_vercel_token "abcd1234efgh" "ts").2.1
      = "Vercel token updated: abcd****efgh"
    ∧ (list_projects (set_vercel_token "abcd1234efgh" "ts").1 "ts" w0.upstream).2
      = [{ url := "https://api.vercel.com/v9/projects",
           headers := [("Authorization", "Bearer abcd1234efgh"),
                       ("Content-Type", "application/json")],
           params := [] }] := by
  have h := set_token_updates_credential_and_logs_masked "abcd1234efgh" "ts"
    w0.upstream (by decide)
  exact ⟨h.2.1.trans (by decide), h.2.2.2⟩

/-- Claim C6 counterexample: a parameter key that is not among the
tool's expected argument names is not ignored — it raises `TypeError`
at the `tool_func(**params)` call, which the dispatch boundary converts
to HTTP 500, while the same invocation with only known keys returns
HTTP 200. -/
theorem unknown_key_not_ignored :
    (do_POST w0 "t" "/tools/list_projects"
        (.parsed (.obj [("bogus", .num 1)]))).reply.status = 500
    ∧ (do_POST w0 "t" "/tools/list_projects" (.parsed (.obj []))).reply.status
        = 200 := by
  exact ⟨rfl, rfl⟩

/-- Claim C6 (amended): unknown parameter keys are not ignored during
dispatch — any such key makes the keyword binding raise `TypeError`,
converted at the dispatch boundary to HTTP 500; only an invocation
whose keys are all expected proceeds. -/
theorem unknown_keys_cause_500 (w : World) (tok k : String)
    (v pj x : JVal) (rest : List (String × JVal)) :
    (do_POST w tok "/tools/list_projects"
        (.parsed (.obj ((k, v) :: rest)))).reply.status = 500
    ∧ (do_POST w tok "/tools/get_project_info"
        (.parsed (.obj [("project_id", pj), ("bogus", x)]))).reply.status = 500
    ∧ (do_POST w tok "/tools/get_project_info"
        (.parsed (.obj [("project_id", pj)]))).reply.status = 200 :=
  ⟨rfl, rfl, rfl⟩

/-- Claim C7: for every registered tool with a required parameter
(`get_project_info`, `list_project_domains`,
`list_environment_variables`, `list_deployment_aliases`,
`set_vercel_token`), a POST omitting that key yields HTTP 500: the
`TypeError` is caught at the dispatch boundary and converted to an
error response. -/
theorem missing_required_param_500 (w : World) (tok : String) :
    (do_POST w tok "/tools/get_project_info" .empty).reply.status = 500
    ∧ (do_POST w tok "/tools/list_project_domains" .empty).reply.status = 500
    ∧ (do_POST w tok "/tools/list_environment_variables" .empty).reply.status = 500
    ∧ (do_POST w tok "/tools/list_deployment_aliases" .empty).reply.status = 500
    ∧ (do_POST w tok "/tools/set_vercel_token" .empty).reply.status = 500 :=
  ⟨rfl, rfl, rfl, rfl, rfl⟩

/-- Claim C8 counterexample: the 404 error response for an unknown path
carries no `Access-Control-Allow-Origin` header (`_handle_error` omits
it), and the CORS preflight response carries no `Content-Length`
header, so not every response sets both. -/
theorem error_response_lacks_cors_header :
    ((do_POST w0 "t" "/nope" .empty).reply.headers.map Prod.fst).contains
        "Access-Control-Allow-Origin" = false
    ∧ (do_OPTIONS.headers.map Prod.fst).contains "Content-Length" = false := by
  exact ⟨rfl, rfl⟩

/-- Claim C8 (amended): success responses written through
`_send_json_response` set both `Access-Control-Allow-Origin: *` and an
explicit `Content-Length`; error responses written through
`_handle_error` set `Content-Length` but no CORS header; the OPTIONS
preflight response sets the CORS header but no `Content-Length`. -/
theorem response_headers_by_writer (data : JVal) (code : Nat) (msg : String) :
    (("Access-Control-Allow-Origin", "*") ∈ (send_json_response data).headers
      ∧ "Content-Length" ∈ (send_json_response data).headers.map Prod.fst)
    ∧ ("Content-Length" ∈ (handle_error code msg).headers.map Prod.fst
      ∧ "Access-Control-Allow-Origin"
          ∉ (handle_error code msg).headers.map Prod.fst)
    ∧ (("Access-Control-Allow-Origin", "*") ∈ do_OPTIONS.headers
      ∧ "Content-Length" ∉ do_OPTIONS.headers.map Prod.fst) := by
  refine ⟨⟨?_, ?_⟩, ⟨?_, ?_⟩, ⟨?_, ?_⟩⟩ <;>
    simp [send_json_response, handle_error, do_OPTIONS]

/-- Claim C9: tool-name resolution ranges over the module's global
namespace, not a registry of registered tools — the module-level
callables `run_vercel_command`, `get_registered_tools` and
`check_port_in_use` are invoked with the supplied parameters and
answered with HTTP 200 rather than 404. -/
theorem global_namespace_dispatch (w : World) (tok : String) :
    ((do_POST w tok "/tools/run_vercel_command"
        (.parsed (.obj [("command_args", .arr [.str "ls"])]))).reply.status = 200
      ∧ (do_POST w tok "/tools/run_vercel_command"
          (.parsed (.obj [("command_args", .arr [.str "ls"])]))).calls
        = [{ url := "https://api.vercel.com/v9/projects",
             headers := apiHeaders tok, params := [] }])
    ∧ ((do_POST w tok "/tools/get_registered_tools" .empty).reply.status = 200
      ∧ (do_POST w tok "/tools/get_registered_tools" .empty).reply.body
        = some (.arr (get_registered_tools.map .str)))
    ∧ ((do_POST w tok "/tools/check_port_in_use"
        (.parsed (.obj [("host", .str "0.0.0.0"), ("port", .num 8002)]))).reply.status
        = 200
      ∧ (do_POST w tok "/tools/check_port_in_use"
          (.parsed (.obj [("host", .str "0.0.0.0"), ("port", .num 8002)]))).reply.body
        = some (.bool (w.portInUse (.str "0.0.0.0") (.num 8002)))) :=
  ⟨⟨rfl, rfl⟩, ⟨rfl, rfl⟩, ⟨rfl, rfl⟩⟩

/-- Claim C10: the response body of `set_vercel_token` is independent of
the token value — for any two tokens and any timestamp it is exactly
the fixed success envelope, whose message is the constant string
`"Vercel token updated successfully"`, revealing nothing about the
token. -/
theorem set_token_response_token_independent (t1 t2 now : String) :
    (set_vercel_token t1 now).2.2 = (set_vercel_token t2 now).2.2
    ∧ (set_vercel_token t1 now).2.2
      = JVal.obj [("status", JVal.str "success"),
                  ("message", JVal.str "Vercel token updated successfully"),
                  ("timestamp", JVal.str now)] :=
  ⟨rfl, rfl⟩

end Vercel
